import Mathlib

/-!
Verification of the message-intake core of bot.py (repository motyar/agent0).

The development is a shallow embedding of the function fetch_new_messages
(src/bot.py, lines 197-304) together with its helpers read_json, write_json
and write_state (lines 102-126), and of the outbound drain loop described in
the specification (the drain loop itself is not present in src/bot.py).

Modelling conventions:
  - The persisted state file storage/state.json is a StateFile: it is either
    absent, malformed JSON, or a parsed JSON object whose last_update_id
    field is an integer, some other JSON value, or missing.
  - The Telegram HTTP call is a TgResponse: either a transport failure
    (network error, timeout, non-2xx status, all of which raise in requests
    and are caught by the outer try of fetch_new_messages), or a parsed
    body TgData with its ok flag and result list.
  - The cache file written by check_updates.sh is a CacheState: absent,
    unreadable, or a parsed TgData.
  - Module constants TELEGRAM_TOKEN and TELEGRAM_CHAT_ID are the Env
    record; they are read once at import time and never change during a
    run.  The mutable os.environ entry for TELEGRAM_CHAT_ID is threaded
    separately (envChatId), because line 266 of bot.py writes it while the
    filter at line 271 reads the frozen constant.
  - Calls to log_error are recorded as LogEvent values; print calls are not
    (they are not the error log).
  - Python truthiness of the optional string constants (None and the empty
    string are falsy) is optTruthy.
  - The file write in write_json can fail on the real file system; each
    modelled call carries a writeOk flag saying whether path.write_text
    succeeds.  A failed write leaves the file unchanged and is only logged,
    exactly as the except branch of write_json does.
  - The timestamp field of the returned message dict (wall-clock time) is
    omitted from InboundMessage.
-/

namespace Agent0

/-- JSON value found in the last_update_id field of state.json: an integer,
or some other JSON value (string, list, object, float, null). -/
inductive JVal where
  | jint (n : Int)
  | jother
deriving Repr, DecidableEq

/-- Content of the persisted state file storage/state.json, as far as
fetch_new_messages observes it. -/
inductive StateFile where
  | absent
  | malformed
  | valid (lastUpdateId : Option JVal)
deriving Repr, DecidableEq

/-- An event recorded through log_error in bot.py. -/
inductive LogEvent where
  | readJsonError
  | invalidUpdateIdType
  | telegramApiError
  | fetchException
  | writeJsonError
deriving Repr, DecidableEq

/-- Chat object of a Telegram message; the id field may be missing. -/
structure TgChat where
  id : Option Int
deriving Repr, DecidableEq

/-- Message object of a Telegram update.  A missing text field is modelled
as the empty string, matching message.get with default empty string. -/
structure TgMessage where
  message_id : Int
  text : String
  chat : Option TgChat
deriving Repr, DecidableEq

/-- One Telegram update.  The message object may be missing entirely. -/
structure TgUpdate where
  update_id : Int
  message : Option TgMessage
deriving Repr, DecidableEq

/-- Parsed body of a getUpdates response. -/
structure TgData where
  ok : Bool
  result : List TgUpdate
deriving Repr, DecidableEq

/-- Outcome of the HTTP request in fetch_new_messages: failure covers
network errors, timeouts and non-2xx statuses (requests raises and the
outer try catches); success carries the parsed JSON body. -/
inductive TgResponse where
  | failure
  | success (d : TgData)
deriving Repr, DecidableEq

/-- State of the cache file /tmp/gitbutler/telegram_updates.json. -/
inductive CacheState where
  | absent
  | unreadable
  | cached (d : TgData)
deriving Repr, DecidableEq

/-- The dict returned by fetch_new_messages on acceptance (timestamp
omitted, see the module docstring). -/
structure InboundMessage where
  update_id : Int
  message_id : Int
  text : String
  chat_id : String
deriving Repr, DecidableEq

/-- Module-level constants of bot.py read from the environment at import
time: TELEGRAM_TOKEN and TELEGRAM_CHAT_ID.  none models an unset
environment variable. -/
structure Env where
  token : Option String
  chatIdConst : Option String
deriving Repr, DecidableEq

/-- Inputs of one fetch_new_messages call that come from the outside
world: the use_cached argument, the cache file state, the transport
response the API would give, and whether the state-file write succeeds. -/
structure CallInput where
  useCached : Bool
  cache : CacheState
  resp : TgResponse
  writeOk : Bool
deriving Repr, DecidableEq

/-- Result of one fetch_new_messages call: the persisted state file after
the call, the os.environ entry for TELEGRAM_CHAT_ID after the call, the
returned value, the offset parameter of the API request when one was made,
and the log_error events emitted. -/
structure FetchResult where
  state' : StateFile
  envChatId' : Option String
  ret : Option InboundMessage
  reqOffset : Option Int
  logs : List LogEvent
deriving Repr, DecidableEq

/-- Python truthiness of an optional string: None and the empty string are
falsy. -/
def optTruthy : Option String → Bool
  | none => false
  | some s => !(s == "")

/-- Lines 205-212 of bot.py: read_json with default, then the get with
default 0, then the isinstance integer check.  Returns the cursor value
the call will use and the log_error events emitted while loading. -/
def loadCursor : StateFile → Int × List LogEvent
  | .absent => (0, [])
  | .malformed => (0, [.readJsonError])
  | .valid none => (0, [])
  | .valid (some (.jint n)) => (n, [])
  | .valid (some .jother) => (0, [.invalidUpdateIdType])

/-- Cursor value loaded from a state file, without the log events. -/
def loadVal (st : StateFile) : Int := (loadCursor st).1

/-- Lines 113-126 of bot.py: write_state via write_json.  The write either
succeeds, replacing the file with a JSON object whose last_update_id is
the given integer, or fails, leaving the file unchanged and logging the
error.  The function always returns normally. -/
def writeState (st : StateFile) (writeOk : Bool) (u : Int) :
    StateFile × List LogEvent :=
  if writeOk then (.valid (some (.jint u)), [])
  else (st, [.writeJsonError])

/-- Lines 217-225 of bot.py: the cached response is used exactly when
use_cached is true, the cache file exists and its JSON parses. -/
def cachedData (inp : CallInput) : Option TgData :=
  if inp.useCached then
    match inp.cache with
    | .cached d => some d
    | _ => none
  else none

/-- Line 262 of bot.py: chat_id is str of chat.get with default empty
string, where message and chat objects default to empty dicts. -/
def chatIdStr : Option TgMessage → String
  | none => ""
  | some m =>
    match m.chat with
    | none => ""
    | some c =>
      match c.id with
      | none => ""
      | some i => toString i

/-- Line 278 of bot.py: text is message.get with default empty string. -/
def textOf : Option TgMessage → String
  | none => ""
  | some m => m.text

/-- Line 279 of bot.py: message_id is message.get with default 0. -/
def messageIdOf : Option TgMessage → Int
  | none => 0
  | some m => m.message_id

/-- Line 265 of bot.py: the auto-adopt condition, taken when the constant
TELEGRAM_CHAT_ID is falsy and the incoming chat_id string is truthy. -/
def adoptCond (c : Option String) (chatId : String) : Bool :=
  (match c with
   | none => true
   | some s => s == "") && !(chatId == "")

/-- Line 271 of bot.py: the chat filter condition, excluding the
used_cache conjunct: the constant TELEGRAM_CHAT_ID is truthy and differs
from the incoming chat_id string. -/
def chatFilter (c : Option String) (chatId : String) : Bool :=
  match c with
  | none => false
  | some s => !(s == "") && !(chatId == s)

/-- Lines 248-300 of bot.py: the part of fetch_new_messages after the
response body data is in hand.  usedCache records whether the body came
from the cache file, which disables the chat filter at line 271. -/
def processData (env : Env) (envChatId : Option String) (st : StateFile)
    (logs : List LogEvent) (usedCache : Bool) (reqOffset : Option Int)
    (writeOk : Bool) (d : TgData) : FetchResult :=
  if d.ok = false then
    ⟨st, envChatId, none, reqOffset, logs ++ [.telegramApiError]⟩
  else
    match d.result with
    | [] => ⟨st, envChatId, none, reqOffset, logs⟩
    | u :: _ =>
      let chatId := chatIdStr u.message
      let envChatId2 :=
        if adoptCond env.chatIdConst chatId = true then some chatId else envChatId
      let w := writeState st writeOk u.update_id
      if usedCache = false ∧ chatFilter env.chatIdConst chatId = true then
        ⟨w.1, envChatId2, none, reqOffset, logs ++ w.2⟩
      else if textOf u.message ≠ "" then
        ⟨w.1, envChatId2,
          some ⟨u.update_id, messageIdOf u.message, textOf u.message, chatId⟩,
          reqOffset, logs ++ w.2⟩
      else
        ⟨w.1, envChatId2, none, reqOffset, logs ++ w.2⟩

/-- Lines 197-304 of bot.py: one call of fetch_new_messages.  The call
loads the cursor, tries the cache when asked, otherwise checks the token
and performs the API request with offset one past the cursor, and then
processes the body.  Transport failures are caught by the outer try,
logged, and turned into a None return with the state file untouched. -/
def fetchNewMessages (env : Env) (envChatId : Option String)
    (st : StateFile) (inp : CallInput) : FetchResult :=
  let c := loadCursor st
  match cachedData inp with
  | some d => processData env envChatId st c.2 true none inp.writeOk d
  | none =>
    if optTruthy env.token then
      match inp.resp with
      | .failure => ⟨st, envChatId, none, some (c.1 + 1), c.2 ++ [.fetchException]⟩
      | .success d => processData env envChatId st c.2 false (some (c.1 + 1)) inp.writeOk d
    else ⟨st, envChatId, none, none, c.2⟩

/-- Response body the call actually processes, if any: the cached body
when the cache path is taken, otherwise the API body when the token is
set and the request succeeds. -/
def effData (env : Env) (inp : CallInput) : Option TgData :=
  match cachedData inp with
  | some d => some d
  | none =>
    if optTruthy env.token then
      match inp.resp with
      | .success d => some d
      | .failure => none
    else none

/-- A sequence of fetch_new_messages calls threading the state file and
the os.environ chat id through; entry k is the full result of call k. -/
def fetchTrace (env : Env) : Option String → StateFile → List CallInput →
    List FetchResult
  | _, _, [] => []
  | e, st, inp :: rest =>
    let r := fetchNewMessages env e st inp
    r :: fetchTrace env r.envChatId' r.state' rest

/-- The transport contract of getUpdates for one call: every update in
the processed body has update_id at least the requested lower bound,
which is the loaded cursor plus one. -/
def validCallB (env : Env) (st : StateFile) (inp : CallInput) : Bool :=
  match effData env inp with
  | none => true
  | some d => d.result.all (fun u => decide (loadVal st + 1 ≤ u.update_id))

/-- The transport contract holds at every call of a sequence, each call
judged against the state file it actually starts from. -/
def allValidB (env : Env) : Option String → StateFile → List CallInput → Bool
  | _, _, [] => true
  | e, st, inp :: rest =>
    validCallB env st inp &&
      allValidB env (fetchNewMessages env e st inp).envChatId'
        (fetchNewMessages env e st inp).state' rest

/-- Outbound queue item, as described in section 3 of the spec. -/
structure OutboundMessage where
  chat_id : String
  text : String
  reply_to_message_id : Option Int
deriving Repr, DecidableEq

/-- Modelled from the spec: the outbound drain loop of section 4.3 is not
present in src/bot.py (only legacy tests reference a send_outgoing_messages
method of a GitButler class that the current source does not define), so it
is modelled from the words of the spec.  While the queue is non-empty and
an attempt budget remains, pop the oldest item and attempt delivery through
the transport collaborator, indexed by the running attempt number; on
success leave it popped, on failure reinsert it at the front and stop the
pass.  Returns the items delivered in order, the remaining queue, and the
number of delivery attempts made. -/
def drain (send : Nat → OutboundMessage → Bool) :
    Nat → Nat → List OutboundMessage →
    List OutboundMessage × List OutboundMessage × Nat
  | 0, _, q => ([], q, 0)
  | _ + 1, _, [] => ([], [], 0)
  | b + 1, i, x :: rest =>
    if send i x then
      let r := drain send b (i + 1) rest
      (x :: r.1, r.2.1, r.2.2 + 1)
    else ([], x :: rest, 1)

/-- Environment entry for the chat id after one processData call that
reached an update: adopted when the constant is falsy and the incoming
chat id is non-empty. -/
def adoptedEnv (env : Env) (e : Option String) (u : TgUpdate) : Option String :=
  if adoptCond env.chatIdConst (chatIdStr u.message) = true
  then some (chatIdStr u.message) else e

/-- Branch equation: the response body carries a false ok flag. -/
theorem processData_not_ok (env : Env) (e : Option String) (st : StateFile)
    (logs : List LogEvent) (uc : Bool) (ro : Option Int) (w : Bool)
    (d : TgData) (hok : d.ok = false) :
    processData env e st logs uc ro w d =
      ⟨st, e, none, ro, logs ++ [.telegramApiError]⟩ := by
  unfold processData
  rw [hok]
  simp

/-- Branch equation: the response body carries no updates. -/
theorem processData_empty (env : Env) (e : Option String) (st : StateFile)
    (logs : List LogEvent) (uc : Bool) (ro : Option Int) (w : Bool)
    (d : TgData) (hok : d.ok = true) (hres : d.result = []) :
    processData env e st logs uc ro w d = ⟨st, e, none, ro, logs⟩ := by
  unfold processData
  rw [hok, hres]
  simp

/-- Branch equation: the head update is rejected by the chat filter. -/
theorem processData_filtered (env : Env) (e : Option String) (st : StateFile)
    (logs : List LogEvent) (uc : Bool) (ro : Option Int) (w : Bool)
    (d : TgData) (u : TgUpdate) (rest : List TgUpdate)
    (hok : d.ok = true) (hres : d.result = u :: rest)
    (hf : uc = false ∧ chatFilter env.chatIdConst (chatIdStr u.message) = true) :
    processData env e st logs uc ro w d =
      ⟨(writeState st w u.update_id).1, adoptedEnv env e u, none, ro,
        logs ++ (writeState st w u.update_id).2⟩ := by
  unfold processData
  rw [hok, hres]
  simp [adoptedEnv, if_pos hf]

/-- Branch equation: the head update is accepted and returned. -/
theorem processData_accept (env : Env) (e : Option String) (st : StateFile)
    (logs : List LogEvent) (uc : Bool) (ro : Option Int) (w : Bool)
    (d : TgData) (u : TgUpdate) (rest : List TgUpdate)
    (hok : d.ok = true) (hres : d.result = u :: rest)
    (hf : ¬(uc = false ∧ chatFilter env.chatIdConst (chatIdStr u.message) = true))
    (ht : textOf u.message ≠ "") :
    processData env e st logs uc ro w d =
      ⟨(writeState st w u.update_id).1, adoptedEnv env e u,
        some ⟨u.update_id, messageIdOf u.message, textOf u.message,
          chatIdStr u.message⟩,
        ro, logs ++ (writeState st w u.update_id).2⟩ := by
  unfold processData
  rw [hok, hres]
  simp [adoptedEnv, if_neg hf, if_pos ht]

/-- Branch equation: the head update has no text payload and is skipped. -/
theorem processData_skip (env : Env) (e : Option String) (st : StateFile)
    (logs : List LogEvent) (uc : Bool) (ro : Option Int) (w : Bool)
    (d : TgData) (u : TgUpdate) (rest : List TgUpdate)
    (hok : d.ok = true) (hres : d.result = u :: rest)
    (_hf : ¬(uc = false ∧ chatFilter env.chatIdConst (chatIdStr u.message) = true))
    (ht : textOf u.message = "") :
    processData env e st logs uc ro w d =
      ⟨(writeState st w u.update_id).1, adoptedEnv env e u, none, ro,
        logs ++ (writeState st w u.update_id).2⟩ := by
  unfold processData
  rw [hok, hres]
  simp [adoptedEnv, ht]

/-- Characterization of an accepting processData call: the returned
message is built from the head update, and the state file and logs are
those of the write. -/
theorem processData_ret_some (env : Env) (e : Option String) (st : StateFile)
    (logs : List LogEvent) (uc : Bool) (ro : Option Int) (w : Bool)
    (d : TgData) (m : InboundMessage)
    (h : (processData env e st logs uc ro w d).ret = some m) :
    ∃ u rest, d.ok = true ∧ d.result = u :: rest ∧
      m = ⟨u.update_id, messageIdOf u.message, textOf u.message,
        chatIdStr u.message⟩ ∧
      (processData env e st logs uc ro w d).state' =
        (writeState st w u.update_id).1 ∧
      (processData env e st logs uc ro w d).logs =
        logs ++ (writeState st w u.update_id).2 := by
  cases hok : d.ok with
  | false => rw [processData_not_ok env e st logs uc ro w d hok] at h; simp at h
  | true =>
    cases hres : d.result with
    | nil => rw [processData_empty env e st logs uc ro w d hok hres] at h; simp at h
    | cons u rest =>
      by_cases hf : uc = false ∧ chatFilter env.chatIdConst (chatIdStr u.message) = true
      · rw [processData_filtered env e st logs uc ro w d u rest hok hres hf] at h
        simp at h
      · by_cases ht : textOf u.message = ""
        · rw [processData_skip env e st logs uc ro w d u rest hok hres hf ht] at h
          simp at h
        · rw [processData_accept env e st logs uc ro w d u rest hok hres hf ht] at h
          simp only [Option.some.injEq] at h
          refine ⟨u, rest, rfl, rfl, h.symm, ?_, ?_⟩ <;>
            rw [processData_accept env e st logs uc ro w d u rest hok hres hf ht]

/-- Every branch of processData either leaves the state file unchanged or
replaces it with the written head update id. -/
theorem processData_state_cases (env : Env) (e : Option String)
    (st : StateFile) (logs : List LogEvent) (uc : Bool) (ro : Option Int)
    (w : Bool) (d : TgData) :
    (processData env e st logs uc ro w d).state' = st ∨
    ∃ u rest, d.result = u :: rest ∧
      (processData env e st logs uc ro w d).state' =
        (writeState st w u.update_id).1 := by
  cases hok : d.ok with
  | false => left; rw [processData_not_ok env e st logs uc ro w d hok]
  | true =>
    cases hres : d.result with
    | nil => left; rw [processData_empty env e st logs uc ro w d hok hres]
    | cons u rest =>
      right
      refine ⟨u, rest, rfl, ?_⟩
      by_cases hf : uc = false ∧ chatFilter env.chatIdConst (chatIdStr u.message) = true
      · rw [processData_filtered env e st logs uc ro w d u rest hok hres hf]
      · by_cases ht : textOf u.message = ""
        · rw [processData_skip env e st logs uc ro w d u rest hok hres hf ht]
        · rw [processData_accept env e st logs uc ro w d u rest hok hres hf ht]

/-- Path equation: the cache path is taken. -/
theorem fetch_cached (env : Env) (e : Option String) (st : StateFile)
    (inp : CallInput) (d : TgData) (hc : cachedData inp = some d) :
    fetchNewMessages env e st inp =
      processData env e st (loadCursor st).2 true none inp.writeOk d := by
  unfold fetchNewMessages
  rw [hc]

/-- Path equation: the API path is taken and the request succeeds. -/
theorem fetch_api (env : Env) (e : Option String) (st : StateFile)
    (inp : CallInput) (d : TgData) (hc : cachedData inp = none)
    (htok : optTruthy env.token = true) (hresp : inp.resp = .success d) :
    fetchNewMessages env e st inp =
      processData env e st (loadCursor st).2 false
        (some ((loadCursor st).1 + 1)) inp.writeOk d := by
  unfold fetchNewMessages
  rw [hc, hresp]
  simp [htok]

/-- Path equation: the API path is taken and the request fails at the
transport level; the outer try logs and returns None. -/
theorem fetch_transport_failure (env : Env) (e : Option String)
    (st : StateFile) (inp : CallInput) (hc : cachedData inp = none)
    (htok : optTruthy env.token = true) (hresp : inp.resp = .failure) :
    fetchNewMessages env e st inp =
      ⟨st, e, none, some ((loadCursor st).1 + 1),
        (loadCursor st).2 ++ [.fetchException]⟩ := by
  unfold fetchNewMessages
  rw [hc, hresp]
  simp [htok]

/-- Path equation: no cached data and no token configured. -/
theorem fetch_no_token (env : Env) (e : Option String) (st : StateFile)
    (inp : CallInput) (hc : cachedData inp = none)
    (htok : optTruthy env.token = false) :
    fetchNewMessages env e st inp = ⟨st, e, none, none, (loadCursor st).2⟩ := by
  unfold fetchNewMessages
  rw [hc]
  simp [htok]

/-- A call that reaches a response body reaches it either through the
cache or through the API, and is a processData call on that body. -/
theorem fetch_of_effData (env : Env) (e : Option String) (st : StateFile)
    (inp : CallInput) (d : TgData) (h : effData env inp = some d) :
    (fetchNewMessages env e st inp =
        processData env e st (loadCursor st).2 true none inp.writeOk d) ∨
    (fetchNewMessages env e st inp =
        processData env e st (loadCursor st).2 false
          (some ((loadCursor st).1 + 1)) inp.writeOk d) := by
  cases hc : cachedData inp with
  | some d2 =>
    left
    have hd : d2 = d := by
      unfold effData at h
      rw [hc] at h
      exact Option.some.inj h
    subst hd
    exact fetch_cached env e st inp d2 hc
  | none =>
    right
    unfold effData at h
    rw [hc] at h
    cases htok : optTruthy env.token with
    | false => rw [htok] at h; simp at h
    | true =>
      rw [htok] at h
      cases hresp : inp.resp with
      | failure => rw [hresp] at h; simp at h
      | success d2 =>
        rw [hresp] at h
        simp only [if_true] at h
        have hd : d2 = d := Option.some.inj h
        subst hd
        exact fetch_api env e st inp d2 hc htok hresp

/-- A call that reaches no response body returns None and leaves the
state file unchanged. -/
theorem fetch_of_effData_none (env : Env) (e : Option String)
    (st : StateFile) (inp : CallInput) (h : effData env inp = none) :
    (fetchNewMessages env e st inp).state' = st ∧
    (fetchNewMessages env e st inp).ret = none := by
  cases hc : cachedData inp with
  | some d => unfold effData at h; rw [hc] at h; simp at h
  | none =>
    unfold effData at h
    rw [hc] at h
    cases htok : optTruthy env.token with
    | false => rw [fetch_no_token env e st inp hc htok]; exact ⟨rfl, rfl⟩
    | true =>
      rw [htok] at h
      cases hresp : inp.resp with
      | failure =>
        rw [fetch_transport_failure env e st inp hc htok hresp]
        exact ⟨rfl, rfl⟩
      | success d2 => rw [hresp] at h; simp at h

/-- Bound extracted from the transport contract of one call. -/
theorem validCallB_bound (env : Env) (st : StateFile) (inp : CallInput)
    (d : TgData) (heff : effData env inp = some d)
    (hv : validCallB env st inp = true) :
    ∀ u ∈ d.result, loadVal st + 1 ≤ u.update_id := by
  intro u hu
  unfold validCallB at hv
  rw [heff, List.all_eq_true] at hv
  exact of_decide_eq_true (hv u hu)

/-- Cursor value after a successful write. -/
theorem loadVal_write_true (st : StateFile) (u : Int) :
    loadVal (writeState st true u).1 = u := rfl

/-- Single step, cursor monotone under the transport contract: the state
file the call leaves behind loads a cursor at least the loaded one. -/
theorem step_state_mono (env : Env) (e : Option String) (st : StateFile)
    (inp : CallInput) (hv : validCallB env st inp = true) :
    loadVal st ≤ loadVal (fetchNewMessages env e st inp).state' := by
  cases heff : effData env inp with
  | none => rw [(fetch_of_effData_none env e st inp heff).1]
  | some d =>
    have hb := validCallB_bound env st inp d heff hv
    rcases fetch_of_effData env e st inp d heff with hf | hf <;> rw [hf] <;>
    · rcases processData_state_cases env e st (loadCursor st).2 _ _
        inp.writeOk d with hs | ⟨u, rest, hres, hs⟩
      · rw [hs]
      · rw [hs]
        have hu := hb u (by rw [hres]; exact List.mem_cons_self u rest)
        cases hw : inp.writeOk with
        | false => simp [writeState]
        | true => rw [loadVal_write_true]; omega

/-- Single step, returned message bound under the transport contract. -/
theorem step_ret_bound (env : Env) (e : Option String) (st : StateFile)
    (inp : CallInput) (m : InboundMessage)
    (hv : validCallB env st inp = true)
    (hm : (fetchNewMessages env e st inp).ret = some m) :
    loadVal st + 1 ≤ m.update_id := by
  cases heff : effData env inp with
  | none =>
    rw [(fetch_of_effData_none env e st inp heff).2] at hm
    simp at hm
  | some d =>
    have hb := validCallB_bound env st inp d heff hv
    rcases fetch_of_effData env e st inp d heff with hf | hf <;> rw [hf] at hm <;>
    · obtain ⟨u, rest, hok, hres, hm2, hst, hlog⟩ :=
        processData_ret_some env e st _ _ _ inp.writeOk d m hm
      have hu := hb u (by rw [hres]; exact List.mem_cons_self u rest)
      rw [hm2]
      exact hu

/-- Single step, acceptance persists the returned update id when the
write succeeds. -/
theorem step_ret_write (env : Env) (e : Option String) (st : StateFile)
    (inp : CallInput) (m : InboundMessage) (hw : inp.writeOk = true)
    (hm : (fetchNewMessages env e st inp).ret = some m) :
    (fetchNewMessages env e st inp).state' =
      .valid (some (.jint m.update_id)) := by
  cases heff : effData env inp with
  | none =>
    rw [(fetch_of_effData_none env e st inp heff).2] at hm
    simp at hm
  | some d =>
    rcases fetch_of_effData env e st inp d heff with hf | hf <;>
      rw [hf] at hm ⊢ <;>
    · obtain ⟨u, rest, hok, hres, hm2, hst, hlog⟩ :=
        processData_ret_some env e st _ _ _ inp.writeOk d m hm
      rw [hst, hw, hm2]
      rfl

/-- Single step, acceptance with a failed write leaves the state file
unchanged and logs the write error. -/
theorem step_ret_nowrite (env : Env) (e : Option String) (st : StateFile)
    (inp : CallInput) (m : InboundMessage) (hw : inp.writeOk = false)
    (hm : (fetchNewMessages env e st inp).ret = some m) :
    (fetchNewMessages env e st inp).state' = st ∧
    LogEvent.writeJsonError ∈ (fetchNewMessages env e st inp).logs := by
  cases heff : effData env inp with
  | none =>
    rw [(fetch_of_effData_none env e st inp heff).2] at hm
    simp at hm
  | some d =>
    rcases fetch_of_effData env e st inp d heff with hf | hf <;>
      rw [hf] at hm ⊢ <;>
    · obtain ⟨u, rest, hok, hres, hm2, hst, hlog⟩ :=
        processData_ret_some env e st _ _ _ inp.writeOk d m hm
      rw [hst, hlog, hw]
      exact ⟨rfl, by simp [writeState]⟩

/-- List helper: an element read off by index is a member. -/
theorem mem_of_idx {α : Type} (l : List α) (i : Nat) (a : α)
    (h : l[i]? = some a) : a ∈ l := by
  obtain ⟨hlt, rfl⟩ := List.getElem?_eq_some_iff.mp h
  exact List.getElem_mem hlt

/-- Decomposition of the transport contract over a cons. -/
theorem allValidB_cons (env : Env) (e : Option String) (st : StateFile)
    (inp : CallInput) (rest : List CallInput) :
    allValidB env e st (inp :: rest) = true ↔
      validCallB env st inp = true ∧
      allValidB env (fetchNewMessages env e st inp).envChatId'
        (fetchNewMessages env e st inp).state' rest = true := by
  have h : allValidB env e st (inp :: rest) =
      (validCallB env st inp &&
        allValidB env (fetchNewMessages env e st inp).envChatId'
          (fetchNewMessages env e st inp).state' rest) := rfl
  rw [h, Bool.and_eq_true]

/-- Every call of a run under the transport contract leaves a state file
whose cursor is at least the starting one, and returns only messages
whose update id exceeds the starting cursor. -/
theorem trace_bound (env : Env) :
    ∀ (inputs : List CallInput) (e : Option String) (st : StateFile),
      allValidB env e st inputs = true →
      ∀ r ∈ fetchTrace env e st inputs,
        loadVal st ≤ loadVal r.state' ∧
        ∀ m, r.ret = some m → loadVal st + 1 ≤ m.update_id := by
  intro inputs
  induction inputs with
  | nil =>
    intro e st _ r hr
    simp [fetchTrace] at hr
  | cons inp rest ih =>
    intro e st hv r hr
    rw [allValidB_cons] at hv
    obtain ⟨hv1, hv2⟩ := hv
    simp only [fetchTrace, List.mem_cons] at hr
    rcases hr with hr | hr
    · subst hr
      exact ⟨step_state_mono env e st inp hv1,
        fun m hm => step_ret_bound env e st inp m hv1 hm⟩
    · have hrec := ih _ _ hv2 r hr
      have hmono := step_state_mono env e st inp hv1
      refine ⟨le_trans hmono hrec.1, fun m hm => ?_⟩
      have := hrec.2 m hm
      omega

/-- C1 counterexample: the claim quantifies over arbitrary transport
responses, but fetch_new_messages writes the update id of the first item
unguarded (line 285 of bot.py).  With last_update_id 5 persisted, a
response carrying update_id 3 from the allowed chat makes the call write
3 to the state file, a value smaller than the previously persisted 5. -/
theorem cursor_can_decrease_cex :
    (fetchNewMessages ⟨some "t", some "7"⟩ (some "7")
        (.valid (some (.jint 5)))
        ⟨false, .absent,
          .success ⟨true, [⟨3, some ⟨10, "hi", some ⟨some 7⟩⟩⟩]⟩, true⟩).state' =
      .valid (some (.jint 3)) ∧
    loadVal (.valid (some (.jint 3))) < loadVal (.valid (some (.jint 5))) := by
  decide

/-- C1 (amended): over every run of fetch_new_messages calls in which each
processed response body honours the requested lower bound (every item
carries an update id at least the loaded cursor plus one, the getUpdates
offset contract), the persisted cursor is monotonically non-decreasing:
the chain of state files starting from the initial one never loads a
smaller last_update_id than its predecessor.  Without that contract the
code writes the incoming update id unguarded and the cursor can
decrease. -/
theorem cursor_monotone_under_offset_contract (env : Env) :
    ∀ (inputs : List CallInput) (e : Option String) (st : StateFile),
      allValidB env e st inputs = true →
      List.Chain' (fun a b => loadVal a ≤ loadVal b)
        (st :: (fetchTrace env e st inputs).map FetchResult.state') := by
  intro inputs
  induction inputs with
  | nil =>
    intro e st _
    exact List.chain'_singleton st
  | cons inp rest ih =>
    intro e st hv
    rw [allValidB_cons] at hv
    simp only [fetchTrace, List.map_cons]
    rw [List.chain'_cons]
    exact ⟨step_state_mono env e st inp hv.1, ih _ _ hv.2⟩

/-- C1 witness: the worked example of section 8 of the spec, cursor 41
and one valid item with update id 42, gives a non-decreasing chain. -/
theorem cursor_monotone_witness :
    allValidB ⟨some "t", some "7"⟩ (some "7") (.valid (some (.jint 41)))
      [⟨false, .absent,
        .success ⟨true, [⟨42, some ⟨9, "hi", some ⟨some 7⟩⟩⟩]⟩, true⟩] = true ∧
    List.Chain' (fun a b => loadVal a ≤ loadVal b)
      (StateFile.valid (some (.jint 41)) ::
        (fetchTrace ⟨some "t", some "7"⟩ (some "7") (.valid (some (.jint 41)))
          [⟨false, .absent,
            .success ⟨true, [⟨42, some ⟨9, "hi", some ⟨some 7⟩⟩⟩]⟩, true⟩]).map
          FetchResult.state') :=
  ⟨by decide,
    cursor_monotone_under_offset_contract ⟨some "t", some "7"⟩
      [⟨false, .absent,
        .success ⟨true, [⟨42, some ⟨9, "hi", some ⟨some 7⟩⟩⟩]⟩, true⟩]
      (some "7") (.valid (some (.jint 41))) (by decide)⟩

/-- C2: under the getUpdates offset contract and with the state-file
writes succeeding, if a call of a run returns a message with update id U
then that call persisted exactly U to the state file (the write happens
at line 286 of bot.py, before the return at line 289), and every later
call of the run returns only messages with update id strictly greater
than U.  A crash and restart between calls is covered because every call
reloads its cursor from the state file and nothing else observable
survives. -/
theorem fetch_exactly_once (env : Env) :
    ∀ (inputs : List CallInput) (e : Option String) (st : StateFile),
      allValidB env e st inputs = true →
      (∀ inp ∈ inputs, inp.writeOk = true) →
      ∀ (i j : Nat) (ri rj : FetchResult) (m mj : InboundMessage),
        (fetchTrace env e st inputs)[i]? = some ri →
        (fetchTrace env e st inputs)[j]? = some rj →
        ri.ret = some m → rj.ret = some mj → i < j →
        ri.state' = .valid (some (.jint m.update_id)) ∧
        m.update_id < mj.update_id := by
  intro inputs
  induction inputs with
  | nil =>
    intro e st _ _ i j ri rj m mj hi hj _ _ _
    simp [fetchTrace] at hi
  | cons inp rest ih =>
    intro e st hv hw i j ri rj m mj hi hj hm hmj hij
    rw [allValidB_cons] at hv
    obtain ⟨hv1, hv2⟩ := hv
    have hwinp : inp.writeOk = true := hw inp (List.mem_cons_self inp rest)
    have hwrest : ∀ x ∈ rest, x.writeOk = true :=
      fun x hx => hw x (List.mem_cons_of_mem inp hx)
    simp only [fetchTrace] at hi hj
    cases i with
    | zero =>
      rw [List.getElem?_cons_zero] at hi
      have hri : ri = fetchNewMessages env e st inp := (Option.some.inj hi).symm
      subst hri
      cases j with
      | zero => omega
      | succ j2 =>
        rw [List.getElem?_cons_succ] at hj
        have hst := step_ret_write env e st inp m hwinp hm
        refine ⟨hst, ?_⟩
        have hrjmem := mem_of_idx _ j2 rj hj
        have hb := (trace_bound env rest _ _ hv2 rj hrjmem).2 mj hmj
        rw [hst] at hb
        rw [show loadVal (StateFile.valid (some (.jint m.update_id))) =
          m.update_id from rfl] at hb
        omega
    | succ i2 =>
      cases j with
      | zero => omega
      | succ j2 =>
        rw [List.getElem?_cons_succ] at hi hj
        exact ih _ _ hv2 hwrest i2 j2 ri rj m mj hi hj hm hmj (by omega)

/-- C2 witness: a run of two calls returning update ids 1 then 2; the
first call persists 1 and the second returns a strictly larger id. -/
theorem fetch_exactly_once_witness :
    (⟨.valid (some (.jint 1)), some "7", some ⟨1, 10, "a", "7"⟩, some 1, []⟩
        : FetchResult).state' =
      .valid (some (.jint (⟨1, 10, "a", "7"⟩ : InboundMessage).update_id)) ∧
    (⟨1, 10, "a", "7"⟩ : InboundMessage).update_id <
      (⟨2, 11, "b", "7"⟩ : InboundMessage).update_id :=
  fetch_exactly_once ⟨some "t", some "7"⟩
    [⟨false, .absent, .success ⟨true, [⟨1, some ⟨10, "a", some ⟨some 7⟩⟩⟩]⟩, true⟩,
     ⟨false, .absent, .success ⟨true, [⟨2, some ⟨11, "b", some ⟨some 7⟩⟩⟩]⟩, true⟩]
    (some "7") (.valid (some (.jint 0))) (by decide) (by decide) 0 1
    ⟨.valid (some (.jint 1)), some "7", some ⟨1, 10, "a", "7"⟩, some 1, []⟩
    ⟨.valid (some (.jint 2)), some "7", some ⟨2, 11, "b", "7"⟩, some 2, []⟩
    ⟨1, 10, "a", "7"⟩ ⟨2, 11, "b", "7"⟩ (by decide) (by decide) rfl rfl
    (by decide)

/-- C3 counterexample: on the cached-batch path the chat validation at
line 271 of bot.py is skipped (the used_cache conjunct), so a cached item
from chat 8 is returned to the caller even though the configured allowed
chat is 7; the claim says nothing is returned. -/
theorem cached_foreign_chat_cex :
    (fetchNewMessages ⟨some "t", some "7"⟩ (some "7")
        (.valid (some (.jint 0)))
        ⟨true, .cached ⟨true, [⟨5, some ⟨20, "hi", some ⟨some 8⟩⟩⟩]⟩,
          .failure, true⟩).ret = some ⟨5, 20, "hi", "8"⟩ ∧
    ¬(fetchNewMessages ⟨some "t", some "7"⟩ (some "7")
        (.valid (some (.jint 0)))
        ⟨true, .cached ⟨true, [⟨5, some ⟨20, "hi", some ⟨some 8⟩⟩⟩]⟩,
          .failure, true⟩).ret = none := by
  decide

/-- C3 (amended): on the direct API path only, a response whose single
item carries a chat id different from the configured allowed chat id
makes fetch_new_messages return nothing while the persisted cursor is
advanced to the update id of the item; on the cached-batch path the chat
validation is skipped and the item is surfaced. -/
theorem foreign_chat_skipped (env : Env) (e : Option String)
    (st : StateFile) (s : String) (d : TgData) (u : TgUpdate)
    (inp : CallInput)
    (hc : cachedData inp = none)
    (htok : optTruthy env.token = true)
    (hresp : inp.resp = .success d)
    (hok : d.ok = true) (hres : d.result = [u])
    (hconst : env.chatIdConst = some s) (hs : s ≠ "")
    (hne : chatIdStr u.message ≠ s) (hw : inp.writeOk = true) :
    (fetchNewMessages env e st inp).ret = none ∧
    (fetchNewMessages env e st inp).state' =
      .valid (some (.jint u.update_id)) := by
  rw [fetch_api env e st inp d hc htok hresp, hw]
  have hfc : false = false ∧
      chatFilter env.chatIdConst (chatIdStr u.message) = true := by
    refine ⟨rfl, ?_⟩
    rw [hconst]
    unfold chatFilter
    simp [hs, hne]
  rw [processData_filtered env e st _ false _ true d u [] hok hres hfc]
  exact ⟨rfl, rfl⟩

/-- C3 witness: configured chat 7, API item from chat 8 with text;
nothing is returned and the cursor is persisted as 5. -/
theorem foreign_chat_skipped_witness :
    (fetchNewMessages ⟨some "t", some "7"⟩ (some "7")
        (.valid (some (.jint 0)))
        ⟨false, .absent,
          .success ⟨true, [⟨5, some ⟨20, "hi", some ⟨some 8⟩⟩⟩]⟩, true⟩).ret =
      none ∧
    (fetchNewMessages ⟨some "t", some "7"⟩ (some "7")
        (.valid (some (.jint 0)))
        ⟨false, .absent,
          .success ⟨true, [⟨5, some ⟨20, "hi", some ⟨some 8⟩⟩⟩]⟩, true⟩).state' =
      .valid (some (.jint (⟨5, some ⟨20, "hi", some ⟨some 8⟩⟩⟩
        : TgUpdate).update_id)) :=
  foreign_chat_skipped ⟨some "t", some "7"⟩ (some "7")
    (.valid (some (.jint 0))) "7" ⟨true, [⟨5, some ⟨20, "hi", some ⟨some 8⟩⟩⟩]⟩
    ⟨5, some ⟨20, "hi", some ⟨some 8⟩⟩⟩
    ⟨false, .absent,
      .success ⟨true, [⟨5, some ⟨20, "hi", some ⟨some 8⟩⟩⟩]⟩, true⟩
    rfl rfl rfl rfl rfl rfl (by decide) (by decide) rfl

/-- Helper for the no-text branches: whichever way the chat filter goes,
an item without text is never returned and its update id is written. -/
theorem processData_nontext (env : Env) (e : Option String)
    (st : StateFile) (logs : List LogEvent) (uc : Bool) (ro : Option Int)
    (d : TgData) (u : TgUpdate)
    (hok : d.ok = true) (hres : d.result = [u])
    (ht : textOf u.message = "") :
    (processData env e st logs uc ro true d).ret = none ∧
    (processData env e st logs uc ro true d).state' =
      .valid (some (.jint u.update_id)) := by
  by_cases hfc : uc = false ∧
      chatFilter env.chatIdConst (chatIdStr u.message) = true
  · rw [processData_filtered env e st logs uc ro true d u [] hok hres hfc]
    exact ⟨rfl, rfl⟩
  · rw [processData_skip env e st logs uc ro true d u [] hok hres hfc ht]
    exact ⟨rfl, rfl⟩

/-- C4: a response whose single item has no text payload (missing or
empty text field, including an update with no message object at all,
whose text also reads as empty) makes fetch_new_messages return nothing
while the persisted cursor is advanced to the update id of the item.
This holds on both the cached and the API path. -/
theorem nontext_skipped (env : Env) (e : Option String) (st : StateFile)
    (d : TgData) (u : TgUpdate) (inp : CallInput)
    (heff : effData env inp = some d)
    (hok : d.ok = true) (hres : d.result = [u])
    (ht : textOf u.message = "") (hw : inp.writeOk = true) :
    (fetchNewMessages env e st inp).ret = none ∧
    (fetchNewMessages env e st inp).state' =
      .valid (some (.jint u.update_id)) := by
  rcases fetch_of_effData env e st inp d heff with hf | hf <;> rw [hf, hw] <;>
    exact processData_nontext env e st _ _ _ d u hok hres ht

/-- C4 witness: a photo message without text from the allowed chat, as in
the update id fix test; nothing is returned and the cursor is persisted
as 12346.  A second application inside would be redundant: one concrete
instance suffices. -/
theorem nontext_skipped_witness :
    (fetchNewMessages ⟨some "t", some "123456789"⟩ (some "123456789")
        (.valid (some (.jint 12345)))
        ⟨false, .absent,
          .success ⟨true, [⟨12346, some ⟨1000, "", some ⟨some 123456789⟩⟩⟩]⟩,
          true⟩).ret = none ∧
    (fetchNewMessages ⟨some "t", some "123456789"⟩ (some "123456789")
        (.valid (some (.jint 12345)))
        ⟨false, .absent,
          .success ⟨true, [⟨12346, some ⟨1000, "", some ⟨some 123456789⟩⟩⟩]⟩,
          true⟩).state' =
      .valid (some (.jint (⟨12346, some ⟨1000, "", some ⟨some 123456789⟩⟩⟩
        : TgUpdate).update_id)) :=
  nontext_skipped ⟨some "t", some "123456789"⟩ (some "123456789")
    (.valid (some (.jint 12345)))
    ⟨true, [⟨12346, some ⟨1000, "", some ⟨some 123456789⟩⟩⟩]⟩
    ⟨12346, some ⟨1000, "", some ⟨some 123456789⟩⟩⟩
    ⟨false, .absent,
      .success ⟨true, [⟨12346, some ⟨1000, "", some ⟨some 123456789⟩⟩⟩]⟩, true⟩
    rfl rfl rfl rfl rfl

/-- C7 counterexample: when the state file is absent, read_json returns
the default without calling log_error (line 107 of bot.py), so the
cursor defaults to 0 but, against the claim, nothing is logged in that
case. -/
theorem absent_state_unlogged_cex :
    (loadCursor .absent).1 = 0 ∧ (loadCursor .absent).2 = [] := by
  decide

/-- C7 (amended): loading the persisted cursor yields 0 when the state
file is absent, contains malformed JSON, or holds a non-integer
last_update_id; malformed JSON and a non-integer value are logged, the
absent file is not, and in all cases the fetch proceeds non-fatally with
cursor 0, requesting offset 1. -/
theorem cursor_load_defaults :
    loadCursor .absent = (0, []) ∧
    loadCursor .malformed = (0, [.readJsonError]) ∧
    loadCursor (.valid (some .jother)) = (0, [.invalidUpdateIdType]) ∧
    (fetchNewMessages ⟨some "t", some "7"⟩ (some "7") .absent
        ⟨false, .absent, .failure, true⟩).reqOffset = some 1 ∧
    (fetchNewMessages ⟨some "t", some "7"⟩ (some "7") .malformed
        ⟨false, .absent, .failure, true⟩).reqOffset = some 1 ∧
    (fetchNewMessages ⟨some "t", some "7"⟩ (some "7")
        (.valid (some .jother))
        ⟨false, .absent, .failure, true⟩).reqOffset = some 1 := by
  decide

/-- C8: every transport failure during a fetch, namely a network error,
timeout or non-2xx status (all of which raise inside the outer try and
are modelled as TgResponse.failure) or a response with a false ok flag,
makes fetch_new_messages log the error and return None with the state
file untouched.  The function is total, so no exception reaches the
caller and the run continues. -/
theorem transport_failure_nonfatal (env : Env) (e : Option String)
    (st : StateFile) (inp : CallInput)
    (hc : cachedData inp = none)
    (htok : optTruthy env.token = true)
    (hfail : inp.resp = .failure ∨ ∃ d, inp.resp = .success d ∧ d.ok = false) :
    (fetchNewMessages env e st inp).ret = none ∧
    (fetchNewMessages env e st inp).state' = st ∧
    (LogEvent.fetchException ∈ (fetchNewMessages env e st inp).logs ∨
      LogEvent.telegramApiError ∈ (fetchNewMessages env e st inp).logs) := by
  rcases hfail with hresp | ⟨d, hresp, hok⟩
  · rw [fetch_transport_failure env e st inp hc htok hresp]
    exact ⟨rfl, rfl, Or.inl (by simp)⟩
  · rw [fetch_api env e st inp d hc htok hresp,
      processData_not_ok env e st _ false _ inp.writeOk d hok]
    exact ⟨rfl, rfl, Or.inr (by simp)⟩

/-- C8 witness: a network failure with cursor 7 persisted; None comes
back, the state file is untouched and the exception is logged. -/
theorem transport_failure_nonfatal_witness :
    (fetchNewMessages ⟨some "t", some "7"⟩ (some "7")
        (.valid (some (.jint 7))) ⟨false, .absent, .failure, true⟩).ret =
      none ∧
    (fetchNewMessages ⟨some "t", some "7"⟩ (some "7")
        (.valid (some (.jint 7))) ⟨false, .absent, .failure, true⟩).state' =
      .valid (some (.jint 7)) ∧
    (LogEvent.fetchException ∈
      (fetchNewMessages ⟨some "t", some "7"⟩ (some "7")
        (.valid (some (.jint 7))) ⟨false, .absent, .failure, true⟩).logs ∨
     LogEvent.telegramApiError ∈
      (fetchNewMessages ⟨some "t", some "7"⟩ (some "7")
        (.valid (some (.jint 7))) ⟨false, .absent, .failure, true⟩).logs) :=
  transport_failure_nonfatal ⟨some "t", some "7"⟩ (some "7")
    (.valid (some (.jint 7))) ⟨false, .absent, .failure, true⟩
    rfl rfl (Or.inl rfl)

/-- Helper: with a falsy configured chat constant the filter at line 271
of bot.py can never trigger. -/
theorem chatFilter_false_of_falsy (c : Option String) (chatId : String)
    (hc : optTruthy c = false) : chatFilter c chatId = false := by
  cases c with
  | none => rfl
  | some s =>
    unfold optTruthy at hc
    simp at hc
    unfold chatFilter
    simp [hc]

/-- Helper: with a falsy configured chat constant and a non-empty
incoming chat id, the auto-adopt condition at line 265 holds. -/
theorem adoptCond_true (c : Option String) (chatId : String)
    (hc : optTruthy c = false) (hne : chatId ≠ "") :
    adoptCond c chatId = true := by
  cases c with
  | none =>
    unfold adoptCond
    simp [hne]
  | some s =>
    unfold optTruthy at hc
    simp at hc
    unfold adoptCond
    simp [hc, hne]

/-- C9 counterexample: with the configured chat unset, the first call
adopts chat 7 into the process environment, yet the second call returns
the message from chat 8 untouched, because the filter reads the frozen
module constant, not the adopted environment value; the claim says the
second message would be filtered against the adopted chat 7.  The
adopted environment entry is even overwritten by the second sender (the
constant stays falsy, so the adopt branch fires on every call). -/
theorem adopt_does_not_filter_cex :
    ((fetchTrace ⟨some "t", none⟩ none (.valid (some (.jint 0)))
        [⟨false, .absent,
          .success ⟨true, [⟨1, some ⟨10, "hi", some ⟨some 7⟩⟩⟩]⟩, true⟩,
         ⟨false, .absent,
          .success ⟨true, [⟨2, some ⟨11, "yo", some ⟨some 8⟩⟩⟩]⟩, true⟩]).map
        FetchResult.ret) =
      [some ⟨1, 10, "hi", "7"⟩, some ⟨2, 11, "yo", "8"⟩] ∧
    ((fetchTrace ⟨some "t", none⟩ none (.valid (some (.jint 0)))
        [⟨false, .absent,
          .success ⟨true, [⟨1, some ⟨10, "hi", some ⟨some 7⟩⟩⟩]⟩, true⟩,
         ⟨false, .absent,
          .success ⟨true, [⟨2, some ⟨11, "yo", some ⟨some 8⟩⟩⟩]⟩, true⟩]).map
        FetchResult.envChatId') = [some "7", some "8"] := by
  decide

/-- C9 (amended): when the configured allowed chat id is unset,
fetch_new_messages records the chat id of the first sender in the
process environment (line 266 of bot.py), but the filter at line 271
keeps reading the unset module constant, so intake decisions in the run
never chat-filter: any further item with text is returned whatever its
chat id. -/
theorem adopt_env_only (env : Env) (e : Option String) (st : StateFile)
    (d : TgData) (u : TgUpdate) (inp : CallInput)
    (hconst : optTruthy env.chatIdConst = false)
    (heff : effData env inp = some d)
    (hok : d.ok = true) (hres : d.result = [u])
    (htext : textOf u.message ≠ "")
    (hne : chatIdStr u.message ≠ "") :
    (fetchNewMessages env e st inp).envChatId' =
      some (chatIdStr u.message) ∧
    (fetchNewMessages env e st inp).ret =
      some ⟨u.update_id, messageIdOf u.message, textOf u.message,
        chatIdStr u.message⟩ := by
  have hfil : chatFilter env.chatIdConst (chatIdStr u.message) = false :=
    chatFilter_false_of_falsy _ _ hconst
  have hf : ∀ uc : Bool,
      ¬(uc = false ∧ chatFilter env.chatIdConst (chatIdStr u.message) = true) := by
    intro uc hcontra
    rw [hfil] at hcontra
    exact absurd hcontra.2 (by simp)
  rcases fetch_of_effData env e st inp d heff with hf2 | hf2 <;> rw [hf2] <;>
    rw [processData_accept env e st _ _ _ inp.writeOk d u [] hok hres
      (hf _) htext] <;>
    refine ⟨?_, rfl⟩ <;>
    · unfold adoptedEnv
      rw [adoptCond_true env.chatIdConst (chatIdStr u.message) hconst hne]
      simp

/-- C9 witness: no configured chat; a message from chat 999 is both
returned and adopted into the environment, as in the live-fetch test. -/
theorem adopt_env_only_witness :
    (fetchNewMessages ⟨some "t", none⟩ none (.valid (some (.jint 0)))
        ⟨false, .absent,
          .success ⟨true, [⟨1, some ⟨10, "hi", some ⟨some 999⟩⟩⟩]⟩,
          true⟩).envChatId' =
      some (chatIdStr (some ⟨10, "hi", some ⟨some 999⟩⟩)) ∧
    (fetchNewMessages ⟨some "t", none⟩ none (.valid (some (.jint 0)))
        ⟨false, .absent,
          .success ⟨true, [⟨1, some ⟨10, "hi", some ⟨some 999⟩⟩⟩]⟩,
          true⟩).ret =
      some ⟨(⟨1, some ⟨10, "hi", some ⟨some 999⟩⟩⟩ : TgUpdate).update_id,
        messageIdOf (some ⟨10, "hi", some ⟨some 999⟩⟩),
        textOf (some ⟨10, "hi", some ⟨some 999⟩⟩),
        chatIdStr (some ⟨10, "hi", some ⟨some 999⟩⟩)⟩ :=
  adopt_env_only ⟨some "t", none⟩ none (.valid (some (.jint 0)))
    ⟨true, [⟨1, some ⟨10, "hi", some ⟨some 999⟩⟩⟩]⟩
    ⟨1, some ⟨10, "hi", some ⟨some 999⟩⟩⟩
    ⟨false, .absent,
      .success ⟨true, [⟨1, some ⟨10, "hi", some ⟨some 999⟩⟩⟩]⟩, true⟩
    rfl rfl rfl rfl (by decide) (by decide)

/-- C10: write_json (and through it write_state, the cursor-persist
step) always returns normally; when the underlying file write fails the
failure is only logged and the state file keeps its old content, so the
caller still receives the returned InboundMessage even though the
advanced cursor was never durably written. -/
theorem write_failure_nonfatal (env : Env) (e : Option String)
    (st : StateFile) (inp : CallInput) (m : InboundMessage)
    (hw : inp.writeOk = false)
    (hm : (fetchNewMessages env e st inp).ret = some m) :
    writeState st false m.update_id = (st, [.writeJsonError]) ∧
    (fetchNewMessages env e st inp).state' = st ∧
    LogEvent.writeJsonError ∈ (fetchNewMessages env e st inp).logs := by
  refine ⟨rfl, ?_, ?_⟩
  · exact (step_ret_nowrite env e st inp m hw hm).1
  · exact (step_ret_nowrite env e st inp m hw hm).2

/-- C10 witness: a valid message is fetched while the state-file write
fails; the message is still returned (hypothesis discharged by
computation), the file keeps cursor 0 and the write error is logged. -/
theorem write_failure_nonfatal_witness :
    writeState (.valid (some (.jint 0))) false
      (⟨5, 20, "hi", "7"⟩ : InboundMessage).update_id =
      (.valid (some (.jint 0)), [.writeJsonError]) ∧
    (fetchNewMessages ⟨some "t", some "7"⟩ (some "7")
        (.valid (some (.jint 0)))
        ⟨false, .absent,
          .success ⟨true, [⟨5, some ⟨20, "hi", some ⟨some 7⟩⟩⟩]⟩,
          false⟩).state' = .valid (some (.jint 0)) ∧
    LogEvent.writeJsonError ∈
      (fetchNewMessages ⟨some "t", some "7"⟩ (some "7")
        (.valid (some (.jint 0)))
        ⟨false, .absent,
          .success ⟨true, [⟨5, some ⟨20, "hi", some ⟨some 7⟩⟩⟩]⟩,
          false⟩).logs :=
  write_failure_nonfatal ⟨some "t", some "7"⟩ (some "7")
    (.valid (some (.jint 0)))
    ⟨false, .absent,
      .success ⟨true, [⟨5, some ⟨20, "hi", some ⟨some 7⟩⟩⟩]⟩, false⟩
    ⟨5, 20, "hi", "7"⟩ rfl (by decide)

/-- C5: draining a queue of N items with a transport collaborator that
succeeds on every send, under any attempt budget of at least N, empties
the queue with exactly N delivery attempts, and the items are delivered
in first-in-first-out order (the delivered list is the queue itself).
The drain loop is modelled from the spec, see the drain definition. -/
theorem drain_all_success :
    ∀ (q : List OutboundMessage) (k i : Nat),
      drain (fun _ _ => true) (q.length + k) i q = (q, [], q.length) := by
  intro q
  induction q with
  | nil =>
    intro k i
    cases k with
    | zero => rfl
    | succ k2 => rfl
  | cons x rest ih =>
    intro k i
    have hb : (x :: rest).length + k = (rest.length + k) + 1 := by
      simp only [List.length_cons]
      omega
    rw [hb]
    show (x :: (drain (fun _ _ => true) (rest.length + k) (i + 1) rest).1,
      (drain (fun _ _ => true) (rest.length + k) (i + 1) rest).2.1,
      (drain (fun _ _ => true) (rest.length + k) (i + 1) rest).2.2 + 1) =
      (x :: rest, [], (x :: rest).length)
    rw [ih k (i + 1)]
    simp

/-- C6: draining a queue with a transport collaborator that fails on the
second delivery attempt (attempt indices start at 0, so attempt index 1
fails) delivers item 1 and removes it, leaves items 2..N in the queue in
their original order with item 2 reinserted at the front, and makes no
further delivery attempts in that pass: exactly 2 attempts happen.  The
drain loop is modelled from the spec, see the drain definition. -/
theorem drain_fail_second :
    ∀ (x1 x2 : OutboundMessage) (rest : List OutboundMessage) (b : Nat),
      drain (fun i _ => i != 1) (b + 2) 0 (x1 :: x2 :: rest) =
        ([x1], x2 :: rest, 2) := by
  intro x1 x2 rest b
  rfl

end Agent0
